import Mathlib

/-!
Shallow embedding of the BACON-AI speech-to-text backend core
(src/backend/app/config.py, src/backend/app/stt/whisper_engine.py,
src/backend/app/main.py) and proofs about its specified behaviour.

Numeric values that Python represents as floats are modelled with ℚ;
wall-clock timing (`time.time()`) is not modelled and the
`processing_time` field is fixed at 0.  External effects (the
faster-whisper backend, scipy, nvidia-smi / rocm-smi) are modelled as
explicit parameters describing the outcome the environment produces.
-/

namespace BaconStt

/-! ## Model catalog (config.py, `STT_MODELS`) -/

structure ModelCfg where
  name : String
  size_mb : Nat
  accuracy_est : String
  vram_mb : Nat
deriving DecidableEq, Repr

def STT_MODELS : List ModelCfg :=
  [ ⟨"tiny", 75, "~85%", 1000⟩,
    ⟨"base", 150, "~90%", 1000⟩,
    ⟨"small", 500, "~93%", 2000⟩,
    ⟨"medium", 1500, "~95%", 5000⟩,
    ⟨"large-v3", 3000, "~97%+", 10000⟩ ]

/-- Membership test `model_name in STT_MODELS` of the Python dict. -/
def modelKnown (name : String) : Bool :=
  (STT_MODELS.map ModelCfg.name).contains name

/-! ## GPU detection (config.py, `detect_gpu`) -/

/-- Outcome of the `nvidia-smi` probe as observed by `detect_gpu`:
`none` when the tool is missing, fails, emits empty output, or the
memory column fails to parse as an integer (all those exceptions are
swallowed and fall through); `some` carries the parsed name and total
memory in MB. -/
structure NvidiaReport where
  name : String
  vram_mb : Nat
deriving DecidableEq, Repr

/-- Environment seen by `detect_gpu`: the nvidia probe outcome and
whether the `rocm-smi` probe succeeds with an output containing
"Total". -/
structure GpuEnv where
  nvidia : Option NvidiaReport
  rocm : Bool
deriving DecidableEq, Repr

structure GpuInfo where
  gpu_available : Bool
  gpu_type : Option String
  gpu_name : Option String
  vram_mb : Nat
  compute_type : String
  recommended_model : String
deriving DecidableEq, Repr

/-- Embedding of `detect_gpu` (config.py lines 77-154). -/
def detect_gpu (env : GpuEnv) : GpuInfo :=
  match env.nvidia with
  | some r =>
      { gpu_available := true
        gpu_type := some "cuda"
        gpu_name := some r.name
        vram_mb := r.vram_mb
        compute_type := "float16"
        recommended_model :=
          if r.vram_mb ≥ 10000 then "large-v3"
          else if r.vram_mb ≥ 5000 then "medium"
          else if r.vram_mb ≥ 2000 then "small"
          else "base" }
  | none =>
      if env.rocm then
        { gpu_available := true
          gpu_type := some "rocm"
          gpu_name := some "AMD GPU"
          vram_mb := 0
          compute_type := "float16"
          recommended_model := "base" }
      else
        { gpu_available := false
          gpu_type := none
          gpu_name := none
          vram_mb := 0
          compute_type := "int8"
          recommended_model := "base" }

/-- The step function of available accelerator memory stated by the
spec (§4.1): written from the spec words, to be compared with
`detect_gpu`. -/
def spec_step_recommendation (vram_mb : Nat) : String :=
  if vram_mb ≥ 10000 then "large-v3"
  else if vram_mb ≥ 5000 then "medium"
  else if vram_mb ≥ 2000 then "small"
  else "base"

/-! ## Segment aggregation (whisper_engine.py, `_collect_segments`) -/

/-- A raw segment as yielded by the recognition backend. -/
structure FWSegment where
  start : ℚ
  stop : ℚ
  text : String
  avg_logprob : ℚ
  no_speech_prob : ℚ
deriving DecidableEq, Repr

/-- The `info` object returned by the backend alongside the segments. -/
structure FWInfo where
  language : String
  duration : ℚ
deriving DecidableEq, Repr

/-- An entry of `TranscriptionResult.segments`: either a regular
segment dict or a diagnostic `{"error": msg}` dict. -/
inductive SegEntry where
  | seg (start stop : ℚ) (text : String) (avg_logprob no_speech_prob : ℚ)
  | err (msg : String)
deriving DecidableEq, Repr

structure TranscriptionResult where
  text : String
  confidence : ℚ
  language : String
  duration : ℚ
  segments : List SegEntry
  model_used : Option String
  processing_time : ℚ
deriving DecidableEq, Repr

/-- Per-segment confidence, whisper_engine.py line 468:
`min(1.0, max(0.0, 1.0 + segment.avg_logprob))`. -/
def segment_confidence (avg_logprob : ℚ) : ℚ :=
  min 1 (max 0 (1 + avg_logprob))

/-- Loop accumulator of `_collect_segments`. -/
structure CollectAcc where
  segments : List SegEntry
  parts : List String
  total_confidence : ℚ
  segment_count : Nat

/-- One iteration of the `for segment in segments_gen` loop. -/
def collectStep (acc : CollectAcc) (segment : FWSegment) : CollectAcc :=
  { segments := acc.segments ++
      [SegEntry.seg segment.start segment.stop segment.text.trim
        segment.avg_logprob segment.no_speech_prob]
    parts := acc.parts ++ [segment.text.trim]
    total_confidence := acc.total_confidence + segment_confidence segment.avg_logprob
    segment_count := acc.segment_count + 1 }

/-- Embedding of `WhisperEngine._collect_segments`
(whisper_engine.py lines 443-484). -/
def collect_segments (segs : List FWSegment) (info : FWInfo)
    (model_name : Option String) : TranscriptionResult :=
  let acc := segs.foldl collectStep ⟨[], [], 0, 0⟩
  let full_text := String.intercalate " " acc.parts
  let avg_confidence :=
    if acc.segment_count > 0 then acc.total_confidence / (acc.segment_count : ℚ)
    else 0
  { text := full_text
    confidence := avg_confidence
    language := if info.language ≠ "" then info.language else "en"
    duration := if info.duration ≠ 0 then info.duration else 0
    segments := acc.segments
    model_used := model_name
    processing_time := 0 }

/-! ## Engine state and model management (whisper_engine.py) -/

/-- The mutable fields of `WhisperEngine` relevant to model management.
`model` records whether `self._model is not None` (the resident model
object); construction of a fresh model object is reported separately by
`LoadResult.constructed`. -/
structure EngineState where
  model : Bool
  model_name : Option String
  target_model : String
  downloading : Bool
  download_progress : ℚ
deriving DecidableEq, Repr

/-- Engine just after `__init__` with the given target model
(`_model = None`, `_model_name = None`, `_downloading = False`). -/
def mkEngine (target : String) : EngineState :=
  { model := false
    model_name := none
    target_model := target
    downloading := false
    download_progress := 0 }

/-- Outcome the environment produces when `load_model` runs its try
block: the `faster_whisper` import fails, the `WhisperModel(...)`
constructor raises (unsupported device, OOM, ...), or construction
succeeds. -/
inductive LoadOutcome where
  | ok
  | importError
  | constructError
deriving DecidableEq, Repr

/-- Result of `load_model`/`switch_model`: the new engine state, the
returned bool, and whether the `WhisperModel` constructor was invoked
(i.e. the resident model object was released and a rebuild attempted). -/
structure LoadResult where
  state : EngineState
  success : Bool
  constructed : Bool
deriving DecidableEq, Repr

/-- Embedding of `WhisperEngine.load_model` (whisper_engine.py lines
132-191).  The early return on line 145 fires when a model is resident
and its name equals the target; otherwise the try block runs with the
environment-chosen outcome. -/
def load_model (outcome : LoadOutcome) (s : EngineState) : LoadResult :=
  if s.model = true ∧ s.model_name = some s.target_model then
    ⟨s, true, false⟩
  else
    match outcome with
    | .importError =>
        -- `from faster_whisper import WhisperModel` raises before
        -- `_downloading = True`; the handler clears `_downloading`.
        ⟨{ s with downloading := false }, false, false⟩
    | .constructError =>
        -- `_downloading := True`, `_download_progress := 0`, any
        -- resident model unloaded, then `WhisperModel(...)` raises;
        -- the handler clears `_downloading`.
        ⟨{ s with model := false
                  model_name := none
                  downloading := false
                  download_progress := 0 }, false, true⟩
    | .ok =>
        ⟨{ s with model := true
                  model_name := some s.target_model
                  downloading := false
                  download_progress := 1 }, true, true⟩

/-- Embedding of `WhisperEngine.switch_model` (whisper_engine.py lines
193-212): unknown name is rejected with no state change; otherwise the
target is set, the resident model is cleared to force a reload, and
`load_model` runs. -/
def switch_model (model_name : String) (outcome : LoadOutcome)
    (s : EngineState) : LoadResult :=
  if modelKnown model_name = false then
    ⟨s, false, false⟩
  else
    load_model outcome
      { s with target_model := model_name
               model := false
               model_name := none }

/-- Embedding of `WhisperEngine.unload_model` (lines 214-220). -/
def unload_model (s : EngineState) : EngineState :=
  if s.model = true then { s with model := false, model_name := none } else s

/-- Reachable-state invariant of the engine: a resident model is always
named and its name equals the target; with no resident model the
current-model identifier is null.  Established by `__init__` and
preserved by every operation (see the preservation lemmas below). -/
def EngineInv (s : EngineState) : Prop :=
  if s.model = true then s.model_name = some s.target_model
  else s.model_name = none

instance (s : EngineState) : Decidable (EngineInv s) := by
  unfold EngineInv; infer_instance

/-! ## Transcription entry points (whisper_engine.py) -/

/-- Outcome of the backend `self._model.transcribe(...)` call: either a
segment stream plus info, or a raised exception with its message. -/
inductive InferOutcome where
  | ok (segs : List FWSegment) (info : FWInfo)
  | exn (msg : String)
deriving Repr

/-- Embedding of `WhisperEngine.transcribe_file` (whisper_engine.py
lines 226-296).  `fileExists` is the outcome of `file_path.exists()`;
`infer` the outcome of backend inference.  Every control path returns a
`TranscriptionResult`; none raises. -/
def transcribe_file (s : EngineState) (loadOut : LoadOutcome)
    (path : String) (fileExists : Bool) (infer : InferOutcome) :
    EngineState × TranscriptionResult :=
  let r := load_model loadOut s
  if r.success = false then
    (r.state,
      { text := "", confidence := 0, language := "unknown", duration := 0,
        segments := [], model_used := some r.state.target_model,
        processing_time := 0 })
  else if fileExists = false then
    (r.state,
      { text := "", confidence := 0, language := "unknown", duration := 0,
        segments := [SegEntry.err ("File not found: " ++ path)],
        model_used := some r.state.target_model, processing_time := 0 })
  else
    match infer with
    | .exn m =>
        (r.state,
          { text := "", confidence := 0, language := "unknown", duration := 0,
            segments := [SegEntry.err m],
            model_used := some r.state.target_model, processing_time := 0 })
    | .ok segs info =>
        (r.state, collect_segments segs info r.state.model_name)

/-- Availability and behaviour of `scipy.signal.resample` as seen from
inside the `try` on whisper_engine.py lines 340-346: the import may
fail (`ImportError`, the only caught exception), the call may succeed
producing a resampled buffer, or the call itself may raise. -/
inductive Resampler where
  | missing
  | ok (f : List ℚ → Nat → List ℚ)
  | fails (msg : String)

/-- Peak amplitude `np.abs(audio_data).max()` of a NON-EMPTY buffer:
since every absolute value is nonnegative, folding `max` from 0 equals
the numpy maximum on non-empty input.  On a zero-size array the numpy
reduction raises `ValueError` instead; `preprocessSamples` raises that
error before this function is consulted, so the empty case here is
never what the program computes. -/
def peakAbs (audio : List ℚ) : ℚ :=
  audio.foldl (fun m x => max m |x|) 0

/-- The sample-staging pipeline of `transcribe_audio` (whisper_engine.py
lines 330-347): take the peak amplitude (on a zero-size array the numpy
`max()` reduction on line 334 raises `ValueError`, which nothing in
`transcribe_audio` catches), rescale when the peak exceeds 1, then
resample to 16 kHz when the input rate differs.  An exception raised by
the resampling routine itself is not caught either (only `ImportError`
is) and propagates as `Except.error`. -/
def preprocessSamples (resampler : Resampler) (audio : List ℚ)
    (sample_rate : Nat) : Except String (List ℚ) :=
  match audio with
  | [] =>
      .error "zero-size array to reduction operation maximum which has no identity"
  | a :: as =>
      let a1 := if peakAbs (a :: as) > 1
                then (a :: as).map (· / peakAbs (a :: as))
                else (a :: as)
      if sample_rate ≠ 16000 then
        match resampler with
        | .missing => .ok a1      -- ImportError: warn, keep original rate
        | .ok f => .ok (f a1 (a1.length * 16000 / sample_rate))
        | .fails m => .error m    -- not an ImportError: propagates
      else
        .ok a1

/-- Embedding of `WhisperEngine.transcribe_audio` (whisper_engine.py
lines 298-376).  The `Except` layer carries exceptions that escape the
function: the `ValueError` of the peak reduction on an empty buffer and
any non-import failure of the resampling step.  The load check on line
317 precedes the sample staging, so a failed load still returns the
empty result without touching the buffer. -/
def transcribe_audio (s : EngineState) (loadOut : LoadOutcome)
    (resampler : Resampler) (audio : List ℚ) (sample_rate : Nat)
    (infer : InferOutcome) :
    Except String (EngineState × TranscriptionResult) :=
  let r := load_model loadOut s
  if r.success = false then
    .ok (r.state,
      { text := "", confidence := 0, language := "unknown", duration := 0,
        segments := [], model_used := some r.state.target_model,
        processing_time := 0 })
  else
    match preprocessSamples resampler audio sample_rate with
    | .error m => .error m
    | .ok processed =>
        let duration := (processed.length : ℚ) / 16000
        match infer with
        | .exn m =>
            .ok (r.state,
              { text := "", confidence := 0, language := "unknown",
                duration := duration, segments := [SegEntry.err m],
                model_used := some r.state.target_model,
                processing_time := 0 })
        | .ok segs info =>
            .ok (r.state, collect_segments segs info r.state.model_name)

/-! ## WebSocket streaming session (main.py, `websocket_audio`) -/

/-- Per-connection mutable state of the handler: the `recording` flag
and the ordered `audio_chunks` buffer (each chunk a byte string,
modelled as a list of byte values). -/
structure WsSession where
  recording : Bool
  chunks : List (List Nat)
deriving DecidableEq, Repr

/-- Session state right after `websocket.accept()`. -/
def initSession : WsSession := ⟨false, []⟩

/-- Frames the server sends. -/
inductive Frame where
  | status (state : String)
  | result (r : TranscriptionResult)
  | error (message : String)
deriving DecidableEq, Repr

def Frame.isResult : Frame → Bool
  | .result _ => true
  | _ => false

/-- An incoming websocket message as the handler observes it:
`textInvalidJson` — a text frame `json.loads` rejects;
`textNonObject` — valid JSON that is not an object, so `data.get`
raises `AttributeError`, which only the outermost handler catches
(it emits an error frame and the receive loop ends);
`ctrl ty` — a JSON object whose `"type"` field (default `""`) is `ty`;
`binary b` — a binary frame; `disconnect` — the socket closed. -/
inductive WsMsg where
  | textInvalidJson
  | textNonObject
  | ctrl (ty : String)
  | binary (b : List Nat)
  | disconnect
deriving DecidableEq, Repr

/-- Result of handling one message: the updated session, the frames
sent (in order), the number of `transcribe_file` invocations, and
whether the receive loop continues. -/
structure StepOut where
  sess : WsSession
  frames : List Frame
  calls : Nat
  alive : Bool
deriving Repr

/-- Embedding of one iteration of the `while True` receive loop of
`websocket_audio` (main.py lines 428-494).  `transcribe` is the engine
call made through the executor on the concatenated buffer. -/
def wsStep (transcribe : List Nat → TranscriptionResult)
    (s : WsSession) (m : WsMsg) : StepOut :=
  match m with
  | .disconnect => ⟨s, [], 0, false⟩
  | .textInvalidJson => ⟨s, [Frame.error "Invalid JSON"], 0, true⟩
  | .textNonObject =>
      -- AttributeError escapes to the outer `except Exception` which
      -- sends an error frame; the loop does not resume.
      ⟨s, [Frame.error "AttributeError"], 0, false⟩
  | .ctrl ty =>
      if ty = "start" then
        ⟨⟨true, []⟩, [Frame.status "recording"], 0, true⟩
      else if ty = "stop" then
        match s.chunks with
        | [] =>
            ⟨⟨false, []⟩,
              [Frame.status "processing",
               Frame.error "No audio data received",
               Frame.status "ready"], 0, true⟩
        | c :: cs =>
            let combined := (c :: cs).foldl (· ++ ·) []
            ⟨⟨false, []⟩,
              [Frame.status "processing",
               Frame.result (transcribe combined),
               Frame.status "ready"], 1, true⟩
      else if ty = "cancel" then
        ⟨⟨false, []⟩, [Frame.status "ready"], 0, true⟩
      else
        -- Unrecognized type: no branch matches; nothing is sent and
        -- the state is untouched.
        ⟨s, [], 0, true⟩
  | .binary b =>
      -- `if recording and message["bytes"]:` — empty byte strings are
      -- falsy and are dropped even while recording.
      if s.recording = true ∧ b ≠ [] then
        ⟨⟨s.recording, s.chunks ++ [b]⟩, [], 0, true⟩
      else
        ⟨s, [], 0, true⟩

/-- Run the receive loop over a message list, accumulating sent frames
and transcription invocations; stops early when the loop exits. -/
def wsRun (transcribe : List Nat → TranscriptionResult)
    (s : WsSession) : List WsMsg → WsSession × List Frame × Nat
  | [] => (s, [], 0)
  | m :: ms =>
      let o := wsStep transcribe s m
      if o.alive then
        let r := wsRun transcribe o.sess ms
        (r.1, o.frames ++ r.2.1, o.calls + r.2.2)
      else
        (o.sess, o.frames, o.calls)

/-- A fixed engine response, used to instantiate the `transcribe`
parameter of `wsStep` on concrete runs. -/
def dummyTranscribe : List Nat → TranscriptionResult := fun _ =>
  { text := "", confidence := 0, language := "en", duration := 0,
    segments := [], model_used := none, processing_time := 0 }

/-! ## Supporting lemmas -/

theorem segment_confidence_nonneg (lp : ℚ) : 0 ≤ segment_confidence lp :=
  le_min (by norm_num) (le_max_left 0 (1 + lp))

theorem segment_confidence_le_one (lp : ℚ) : segment_confidence lp ≤ 1 :=
  min_le_left 1 (max 0 (1 + lp))

theorem collect_foldl_spec (l : List FWSegment) (a : CollectAcc) :
    (List.foldl collectStep a l).total_confidence
        = a.total_confidence
            + (l.map (fun g => segment_confidence g.avg_logprob)).sum
    ∧ (List.foldl collectStep a l).segment_count
        = a.segment_count + l.length := by
  induction l generalizing a with
  | nil => simp
  | cons g t ih =>
      obtain ⟨h1, h2⟩ := ih (collectStep a g)
      refine ⟨?_, ?_⟩
      · rw [List.foldl_cons, h1]
        simp [collectStep, List.sum_cons]
        ring
      · rw [List.foldl_cons, h2]
        simp [collectStep]
        omega

theorem conf_sum_bounds (l : List FWSegment) :
    0 ≤ (l.map (fun g => segment_confidence g.avg_logprob)).sum
    ∧ (l.map (fun g => segment_confidence g.avg_logprob)).sum
        ≤ (l.length : ℚ) := by
  induction l with
  | nil => simp
  | cons g t ih =>
      refine ⟨?_, ?_⟩
      · have := segment_confidence_nonneg g.avg_logprob
        simp only [List.map_cons, List.sum_cons]
        linarith [ih.1]
      · have := segment_confidence_le_one g.avg_logprob
        simp only [List.map_cons, List.sum_cons, List.length_cons]
        push_cast
        linarith [ih.2]

theorem collect_segments_confidence_eq (segs : List FWSegment)
    (info : FWInfo) (mn : Option String) :
    (collect_segments segs info mn).confidence
      = if segs = [] then 0
        else (segs.map (fun g => segment_confidence g.avg_logprob)).sum
              / (segs.length : ℚ) := by
  obtain ⟨h1, h2⟩ := collect_foldl_spec segs ⟨[], [], 0, 0⟩
  cases segs with
  | nil => simp [collect_segments]
  | cons g t =>
      simp only [collect_segments, h1, h2]
      simp

theorem load_model_target (out : LoadOutcome) (s : EngineState) :
    (load_model out s).state.target_model = s.target_model := by
  unfold load_model
  split
  · rfl
  · cases out <;> rfl

theorem engineInv_mkEngine (t : String) : EngineInv (mkEngine t) := by
  unfold EngineInv mkEngine
  simp

theorem engineInv_load (out : LoadOutcome) (s : EngineState)
    (h : EngineInv s) : EngineInv (load_model out s).state := by
  unfold load_model
  split
  · exact h
  · cases out with
    | importError =>
        unfold EngineInv at h ⊢
        simpa using h
    | constructError => unfold EngineInv; simp
    | ok => unfold EngineInv; simp

theorem engineInv_switch (x : String) (out : LoadOutcome) (s : EngineState)
    (h : EngineInv s) : EngineInv (switch_model x out s).state := by
  unfold switch_model
  split
  · exact h
  · apply engineInv_load
    unfold EngineInv
    simp

theorem engineInv_unload (s : EngineState) (h : EngineInv s) :
    EngineInv (unload_model s) := by
  unfold unload_model
  split
  · unfold EngineInv; simp
  · exact h

theorem preprocessSamples_missing_eq (audio : List ℚ) (rate : Nat)
    (hne : audio ≠ []) :
    preprocessSamples Resampler.missing audio rate
      = .ok (if peakAbs audio > 1 then audio.map (· / peakAbs audio)
             else audio) := by
  cases audio with
  | nil => exact absurd rfl hne
  | cons a as =>
      unfold preprocessSamples
      by_cases h : rate = 16000 <;> simp [h]

/-! ## Claim theorems -/

/-- C1: the aggregator computes each segment's confidence as
clamp(1 + avg_logprob, 0, 1) and the overall confidence as the
arithmetic mean of the per-segment confidences (0 when there are no
segments); consequently the aggregate confidence always lies in [0, 1],
a single segment with avg_logprob = 0 yields confidence 1, and any
segment with avg_logprob ≤ -1 has per-segment confidence 0. -/
theorem collect_segments_confidence_policy :
    (∀ (segs : List FWSegment) (info : FWInfo) (mn : Option String),
        (collect_segments segs info mn).confidence
          = if segs = [] then 0
            else (segs.map (fun g => segment_confidence g.avg_logprob)).sum
                  / (segs.length : ℚ))
    ∧ (∀ (segs : List FWSegment) (info : FWInfo) (mn : Option String),
        0 ≤ (collect_segments segs info mn).confidence
          ∧ (collect_segments segs info mn).confidence ≤ 1)
    ∧ (∀ (g : FWSegment) (info : FWInfo) (mn : Option String),
        g.avg_logprob = 0 → (collect_segments [g] info mn).confidence = 1)
    ∧ (∀ lp : ℚ, lp ≤ -1 → segment_confidence lp = 0) := by
  refine ⟨collect_segments_confidence_eq, ?_, ?_, ?_⟩
  · intro segs info mn
    rw [collect_segments_confidence_eq]
    cases segs with
    | nil => norm_num
    | cons g t =>
        have hb := conf_sum_bounds (g :: t)
        have hlen : (0 : ℚ) < ((g :: t).length : ℚ) := by
          simp only [List.length_cons]
          push_cast
          positivity
        constructor
        · simp only [if_neg (List.cons_ne_nil g t)]
          exact div_nonneg hb.1 (le_of_lt hlen)
        · simp only [if_neg (List.cons_ne_nil g t)]
          exact (div_le_one hlen).mpr hb.2
  · intro g info mn h
    rw [collect_segments_confidence_eq]
    simp [segment_confidence, h]
  · intro lp h
    unfold segment_confidence
    have h0 : 1 + lp ≤ 0 := by linarith
    rw [max_eq_left h0]
    norm_num

/-- C1 witness: a single segment with avg_logprob 0 aggregates to
confidence 1, and avg_logprob -3 clamps to 0. -/
theorem collect_segments_confidence_policy_witness :
    (collect_segments [⟨0, 1, "hello", 0, 0⟩] ⟨"en", 1⟩
        (some "base")).confidence = 1
    ∧ segment_confidence (-(3 : ℚ)) = 0 :=
  ⟨collect_segments_confidence_policy.2.2.1 ⟨0, 1, "hello", 0, 0⟩ ⟨"en", 1⟩
      (some "base") rfl,
   collect_segments_confidence_policy.2.2.2 (-(3 : ℚ)) (by norm_num)⟩

/-- C2: the recommended model is the memory step function
(≥10000 MB → "large-v3", ≥5000 → "medium", ≥2000 → "small",
else "base") of the profile's reported accelerator memory; a CPU-only
detection always recommends "base" with compute type "int8"; a 1500 MB
accelerator report yields "base" and a 10240 MB report yields
"large-v3". -/
theorem detect_gpu_recommendation :
    (∀ env : GpuEnv,
        (detect_gpu env).recommended_model
          = spec_step_recommendation (detect_gpu env).vram_mb)
    ∧ (∀ env : GpuEnv, (detect_gpu env).gpu_available = false →
        (detect_gpu env).recommended_model = "base"
          ∧ (detect_gpu env).compute_type = "int8")
    ∧ (detect_gpu ⟨some ⟨"SimGPU", 1500⟩, false⟩).recommended_model = "base"
    ∧ (detect_gpu ⟨some ⟨"SimGPU", 10240⟩, false⟩).recommended_model
        = "large-v3" := by
  refine ⟨?_, ?_, by decide, by decide⟩
  · rintro ⟨nv, rocm⟩
    cases nv with
    | none => cases rocm <;> decide
    | some r => rfl
  · rintro ⟨nv, rocm⟩ h
    cases nv with
    | none =>
        cases rocm with
        | false => exact ⟨rfl, rfl⟩
        | true => simp [detect_gpu] at h
    | some r => simp [detect_gpu] at h

/-- C2 witness: the no-accelerator detection recommends "base" with
"int8". -/
theorem detect_gpu_recommendation_witness :
    (detect_gpu ⟨none, false⟩).recommended_model = "base"
    ∧ (detect_gpu ⟨none, false⟩).compute_type = "int8" :=
  detect_gpu_recommendation.2.1 ⟨none, false⟩ rfl

/-- C3 counterexample: with model "base" already resident (after a
first successful `switch_model "base"`), a second `switch_model "base"`
invokes the model constructor again — it is not a no-op and the
resident model object is released and rebuilt. -/
theorem switch_model_repeat_reconstructs :
    ((switch_model "base" LoadOutcome.ok (mkEngine "tiny")).state.model
        = true)
    ∧ ((switch_model "base" LoadOutcome.ok (mkEngine "tiny")).state.model_name
        = some "base")
    ∧ ((switch_model "base" LoadOutcome.ok
          (switch_model "base" LoadOutcome.ok (mkEngine "tiny")).state).constructed
        = true)
    ∧ ((switch_model "base" LoadOutcome.ok
          (switch_model "base" LoadOutcome.ok (mkEngine "tiny")).state).success
        = true) := by
  decide

/-- C3 amended: for every valid model identifier x, switch(x) followed
by switch(x) returns success both times and leaves model x resident,
but the second call is not a no-op — switch always clears the resident
model first, so the second call releases and reconstructs the model. -/
theorem switch_model_same_twice_reloads (s : EngineState) (x : String)
    (h : modelKnown x = true) :
    (switch_model x LoadOutcome.ok s).success = true
    ∧ (switch_model x LoadOutcome.ok s).state.model_name = some x
    ∧ (switch_model x LoadOutcome.ok
        (switch_model x LoadOutcome.ok s).state).success = true
    ∧ (switch_model x LoadOutcome.ok
        (switch_model x LoadOutcome.ok s).state).constructed = true
    ∧ (switch_model x LoadOutcome.ok
        (switch_model x LoadOutcome.ok s).state).state.model = true
    ∧ (switch_model x LoadOutcome.ok
        (switch_model x LoadOutcome.ok s).state).state.model_name
        = some x := by
  simp [switch_model, load_model, h]

/-- C3 amended witness at x = "base". -/
theorem switch_model_same_twice_reloads_witness :
    (switch_model "base" LoadOutcome.ok
        (switch_model "base" LoadOutcome.ok (mkEngine "base")).state).success
      = true
    ∧ (switch_model "base" LoadOutcome.ok
        (switch_model "base" LoadOutcome.ok (mkEngine "base")).state).constructed
      = true :=
  ⟨(switch_model_same_twice_reloads (mkEngine "base") "base" (by decide)).2.2.1,
   (switch_model_same_twice_reloads (mkEngine "base") "base" (by decide)).2.2.2.1⟩

/-- C4: from any reachable engine state whose resident model differs
from the target, a load whose construction fails (missing runtime
dependency or constructor exception) returns false and leaves the
engine with no resident model, a null current-model identifier, and the
downloading flag cleared. -/
theorem load_model_failure_resets (s : EngineState) (out : LoadOutcome)
    (hinv : EngineInv s)
    (hdiff : ¬ (s.model = true ∧ s.model_name = some s.target_model))
    (hfail : out ≠ LoadOutcome.ok) :
    (load_model out s).success = false
    ∧ (load_model out s).state.model = false
    ∧ (load_model out s).state.model_name = none
    ∧ (load_model out s).state.downloading = false := by
  cases hM : s.model with
  | true =>
      unfold EngineInv at hinv
      rw [hM] at hinv
      simp at hinv
      exact absurd ⟨hM, hinv⟩ hdiff
  | false =>
      have hn : s.model_name = none := by
        unfold EngineInv at hinv
        rw [hM] at hinv
        simpa using hinv
      cases out with
      | ok => exact absurd rfl hfail
      | importError => simp [load_model, hM, hn]
      | constructError => simp [load_model, hM, hn]

/-- C4 witness: a constructor failure on a fresh engine returns false
and leaves no model resident. -/
theorem load_model_failure_resets_witness :
    (load_model LoadOutcome.constructError (mkEngine "base")).success = false
    ∧ (load_model LoadOutcome.constructError
        (mkEngine "base")).state.model_name = none :=
  ⟨(load_model_failure_resets (mkEngine "base") LoadOutcome.constructError
      (by decide) (by decide) (by decide)).1,
   (load_model_failure_resets (mkEngine "base") LoadOutcome.constructError
      (by decide) (by decide) (by decide)).2.2.1⟩

/-- C5: `transcribe_file` produces a well-formed result on every
control path — a failed load yields the empty result (empty text,
confidence 0, empty segment list) tagged with the target model; a
missing file yields an empty result with a diagnostic segment; a
backend exception yields an empty result with a diagnostic segment
carrying the message.  No path raises (the embedding is a total
function into `TranscriptionResult`). -/
theorem transcribe_file_error_paths :
    (∀ (s : EngineState) (out : LoadOutcome) (path : String)
        (ex : Bool) (inf : InferOutcome),
        (load_model out s).success = false →
        (transcribe_file s out path ex inf).2
          = { text := "", confidence := 0, language := "unknown",
              duration := 0, segments := [],
              model_used := some s.target_model, processing_time := 0 })
    ∧ (∀ (s : EngineState) (out : LoadOutcome) (path : String)
        (inf : InferOutcome),
        (load_model out s).success = true →
        (transcribe_file s out path false inf).2
          = { text := "", confidence := 0, language := "unknown",
              duration := 0,
              segments := [SegEntry.err ("File not found: " ++ path)],
              model_used := some s.target_model, processing_time := 0 })
    ∧ (∀ (s : EngineState) (out : LoadOutcome) (path : String)
        (m : String),
        (load_model out s).success = true →
        (transcribe_file s out path true (InferOutcome.exn m)).2
          = { text := "", confidence := 0, language := "unknown",
              duration := 0, segments := [SegEntry.err m],
              model_used := some s.target_model,
              processing_time := 0 }) := by
  refine ⟨?_, ?_, ?_⟩
  · intro s out path ex inf h
    simp [transcribe_file, h, load_model_target]
  · intro s out path inf h
    simp [transcribe_file, h, load_model_target]
  · intro s out path m h
    simp [transcribe_file, h, load_model_target]

/-- C5 witness: the three error paths at concrete inputs — import
failure, missing file, backend exception. -/
theorem transcribe_file_error_paths_witness :
    (transcribe_file (mkEngine "base") LoadOutcome.importError "a.wav" true
        (InferOutcome.ok [] ⟨"en", 0⟩)).2
      = { text := "", confidence := 0, language := "unknown", duration := 0,
          segments := [], model_used := some "base", processing_time := 0 }
    ∧ (transcribe_file (mkEngine "base") LoadOutcome.ok "a.wav" false
        (InferOutcome.ok [] ⟨"en", 0⟩)).2
      = { text := "", confidence := 0, language := "unknown", duration := 0,
          segments := [SegEntry.err ("File not found: " ++ "a.wav")],
          model_used := some "base", processing_time := 0 }
    ∧ (transcribe_file (mkEngine "base") LoadOutcome.ok "a.wav" true
        (InferOutcome.exn "boom")).2
      = { text := "", confidence := 0, language := "unknown", duration := 0,
          segments := [SegEntry.err "boom"], model_used := some "base",
          processing_time := 0 } :=
  ⟨transcribe_file_error_paths.1 (mkEngine "base") LoadOutcome.importError
      "a.wav" true (InferOutcome.ok [] ⟨"en", 0⟩) (by decide),
   transcribe_file_error_paths.2.1 (mkEngine "base") LoadOutcome.ok
      "a.wav" (InferOutcome.ok [] ⟨"en", 0⟩) (by decide),
   transcribe_file_error_paths.2.2 (mkEngine "base") LoadOutcome.ok
      "a.wav" "boom" (by decide)⟩

/-- C6 counterexample: an exception raised inside the resampling
routine itself (not an ImportError) is not caught by `transcribe_audio`
and surfaces to the caller. -/
theorem transcribe_audio_resample_exception :
    transcribe_audio (mkEngine "base") LoadOutcome.ok
        (Resampler.fails "resample error") [(0 : ℚ)] 8000
        (InferOutcome.ok [] ⟨"en", 0⟩)
      = Except.error "resample error" := by
  rfl

/-- C6 amended: on every NON-EMPTY sample buffer, `transcribe_audio`
divides all samples by the peak amplitude when that peak exceeds 1 and
resamples to 16 kHz whenever the input rate differs; failure to import
the resampling library degrades gracefully to the unresampled (but
rescaled) audio and never surfaces as an exception — with the library
absent the function returns a result on every non-empty buffer; an
exception raised by the resampling routine itself propagates, and so
does the ValueError of the peak reduction on an empty buffer (after a
successful load). -/
theorem transcribe_audio_preprocess_policy :
    (∀ (res : Resampler) (audio : List ℚ), audio ≠ [] →
        preprocessSamples res audio 16000
          = .ok (if peakAbs audio > 1 then audio.map (· / peakAbs audio)
                 else audio))
    ∧ (∀ (f : List ℚ → Nat → List ℚ) (audio : List ℚ) (rate : Nat),
        rate ≠ 16000 → audio ≠ [] →
        preprocessSamples (Resampler.ok f) audio rate
          = .ok (f (if peakAbs audio > 1 then audio.map (· / peakAbs audio)
                    else audio)
              ((if peakAbs audio > 1 then audio.map (· / peakAbs audio)
                else audio).length * 16000 / rate)))
    ∧ (∀ (audio : List ℚ) (rate : Nat),
        rate ≠ 16000 → audio ≠ [] →
        preprocessSamples Resampler.missing audio rate
          = .ok (if peakAbs audio > 1 then audio.map (· / peakAbs audio)
                 else audio))
    ∧ (∀ (s : EngineState) (out : LoadOutcome) (audio : List ℚ)
        (rate : Nat) (inf : InferOutcome), audio ≠ [] →
        ∃ v, transcribe_audio s out Resampler.missing audio rate inf
          = Except.ok v)
    ∧ (∀ (s : EngineState) (out : LoadOutcome) (res : Resampler)
        (rate : Nat) (inf : InferOutcome),
        (load_model out s).success = true →
        transcribe_audio s out res [] rate inf
          = Except.error
              "zero-size array to reduction operation maximum which has no identity") := by
  refine ⟨?_, ?_, ?_, ?_, ?_⟩
  · intro res audio hne
    cases audio with
    | nil => exact absurd rfl hne
    | cons a as => cases res <;> simp [preprocessSamples]
  · intro f audio rate h hne
    cases audio with
    | nil => exact absurd rfl hne
    | cons a as => simp [preprocessSamples, h]
  · intro audio rate h hne
    exact preprocessSamples_missing_eq audio rate hne
  · intro s out audio rate inf hne
    unfold transcribe_audio
    by_cases hs : (load_model out s).success = false
    · simp [hs]
    · rw [preprocessSamples_missing_eq audio rate hne]
      cases inf <;> simp [hs]
  · intro s out res rate inf h
    unfold transcribe_audio
    simp [h, preprocessSamples]

/-- C6 amended witness: peak 2 is rescaled, a differing rate with the
resampling library absent proceeds gracefully, the full call on a
non-empty buffer returns a result, and the empty buffer after a
successful load propagates the ValueError. -/
theorem transcribe_audio_preprocess_policy_witness :
    preprocessSamples Resampler.missing [(2 : ℚ)] 8000 = .ok [(1 : ℚ)]
    ∧ (∃ v, transcribe_audio (mkEngine "base") LoadOutcome.ok
        Resampler.missing [(2 : ℚ)] 8000 (InferOutcome.ok [] ⟨"en", 0⟩)
          = Except.ok v)
    ∧ transcribe_audio (mkEngine "base") LoadOutcome.ok Resampler.missing
        [] 8000 (InferOutcome.ok [] ⟨"en", 0⟩)
      = Except.error
          "zero-size array to reduction operation maximum which has no identity" := by
  refine ⟨?_, ?_, ?_⟩
  · have h := transcribe_audio_preprocess_policy.2.2.1 [(2 : ℚ)] 8000
      (by decide) (by decide)
    rw [h]
    norm_num [peakAbs]
  · exact transcribe_audio_preprocess_policy.2.2.2.1 (mkEngine "base")
      LoadOutcome.ok [(2 : ℚ)] 8000 (InferOutcome.ok [] ⟨"en", 0⟩)
      (by decide)
  · exact transcribe_audio_preprocess_policy.2.2.2.2 (mkEngine "base")
      LoadOutcome.ok Resampler.missing 8000 (InferOutcome.ok [] ⟨"en", 0⟩)
      (by decide)

/-- C7: from the initial session, the sequence start then stop with
zero binary chunks makes the stop step emit exactly status:processing,
then error, then status:ready, in that order; across the whole run no
result frame is sent and the transcription engine is never invoked
(the start step additionally acknowledges with status:recording). -/
theorem ws_start_stop_empty (f : List Nat → TranscriptionResult) :
    wsStep f ((wsStep f initSession (WsMsg.ctrl "start")).sess)
        (WsMsg.ctrl "stop")
      = ⟨⟨false, []⟩,
         [Frame.status "processing", Frame.error "No audio data received",
          Frame.status "ready"], 0, true⟩
    ∧ wsRun f initSession [WsMsg.ctrl "start", WsMsg.ctrl "stop"]
      = (⟨false, []⟩,
         [Frame.status "recording", Frame.status "processing",
          Frame.error "No audio data received", Frame.status "ready"], 0) :=
  ⟨rfl, rfl⟩

/-- C8 counterexample: a text frame that is valid JSON but not a valid
control frame (unknown type "bogus") produces no frame at all — the
server does not emit an error frame. -/
theorem ws_unknown_type_silent :
    wsStep dummyTranscribe initSession (WsMsg.ctrl "bogus")
      = ⟨initSession, [], 0, true⟩ := by
  rfl

/-- C8 amended: in any session state, a text frame that is not valid
JSON leaves the state unchanged and emits exactly one error frame,
while a valid-JSON control frame with an unrecognized type is ignored
silently — state unchanged and no frame emitted. -/
theorem ws_malformed_text_handling (f : List Nat → TranscriptionResult)
    (s : WsSession) :
    wsStep f s WsMsg.textInvalidJson
      = ⟨s, [Frame.error "Invalid JSON"], 0, true⟩
    ∧ (∀ ty : String, ty ≠ "start" → ty ≠ "stop" → ty ≠ "cancel" →
        wsStep f s (WsMsg.ctrl ty) = ⟨s, [], 0, true⟩) := by
  refine ⟨rfl, ?_⟩
  intro ty h1 h2 h3
  simp [wsStep, h1, h2, h3]

/-- C8 amended witness at type "bogus" in a recording session. -/
theorem ws_malformed_text_handling_witness :
    wsStep dummyTranscribe ⟨true, [[1]]⟩ WsMsg.textInvalidJson
      = ⟨⟨true, [[1]]⟩, [Frame.error "Invalid JSON"], 0, true⟩
    ∧ wsStep dummyTranscribe ⟨true, [[1]]⟩ (WsMsg.ctrl "bogus")
      = ⟨⟨true, [[1]]⟩, [], 0, true⟩ :=
  ⟨(ws_malformed_text_handling dummyTranscribe ⟨true, [[1]]⟩).1,
   (ws_malformed_text_handling dummyTranscribe ⟨true, [[1]]⟩).2 "bogus"
      (by decide) (by decide) (by decide)⟩

/-- C9 counterexample: a zero-length binary frame received while
RECORDING is dropped (the handler requires a truthy byte string), not
appended to the audio buffer. -/
theorem ws_empty_chunk_dropped_while_recording :
    wsStep dummyTranscribe ⟨true, []⟩ (WsMsg.binary [])
      = ⟨⟨true, []⟩, [], 0, true⟩ := by
  rfl

/-- C9 amended: a non-empty binary frame received while RECORDING is
appended to the session's audio buffer; a zero-length binary frame is
dropped even while RECORDING; and every binary frame received while not
RECORDING is dropped silently — no state change, nothing buffered, no
frame emitted. -/
theorem ws_binary_frame_policy (f : List Nat → TranscriptionResult)
    (s : WsSession) (b : List Nat) :
    (s.recording = true → b ≠ [] →
        wsStep f s (WsMsg.binary b) = ⟨⟨true, s.chunks ++ [b]⟩, [], 0, true⟩)
    ∧ (s.recording = true → b = [] →
        wsStep f s (WsMsg.binary b) = ⟨s, [], 0, true⟩)
    ∧ (s.recording = false →
        wsStep f s (WsMsg.binary b) = ⟨s, [], 0, true⟩) := by
  refine ⟨?_, ?_, ?_⟩
  · intro hr hb
    simp [wsStep, hr, hb]
  · intro hr hb
    simp [wsStep, hb]
  · intro hr
    simp [wsStep, hr]

/-- C9 amended witness: a one-byte chunk is appended while recording;
any chunk in READY is dropped. -/
theorem ws_binary_frame_policy_witness :
    wsStep dummyTranscribe ⟨true, []⟩ (WsMsg.binary [7])
      = ⟨⟨true, [[7]]⟩, [], 0, true⟩
    ∧ wsStep dummyTranscribe ⟨false, []⟩ (WsMsg.binary [7])
      = ⟨⟨false, []⟩, [], 0, true⟩ :=
  ⟨(ws_binary_frame_policy dummyTranscribe ⟨true, []⟩ [7]).1 rfl
      (by decide),
   (ws_binary_frame_policy dummyTranscribe ⟨false, []⟩ [7]).2.2 rfl⟩

/-- C10: a start control frame received while already RECORDING
restarts the utterance — the buffered chunks are discarded, the session
stays in RECORDING, and a status:recording frame is emitted. -/
theorem ws_start_while_recording_restarts
    (f : List Nat → TranscriptionResult) (s : WsSession)
    (_h : s.recording = true) :
    wsStep f s (WsMsg.ctrl "start")
      = ⟨⟨true, []⟩, [Frame.status "recording"], 0, true⟩ := by
  rfl

/-- C10 witness: a recording session holding a buffered chunk is reset
by start. -/
theorem ws_start_while_recording_restarts_witness :
    wsStep dummyTranscribe ⟨true, [[1, 2]]⟩ (WsMsg.ctrl "start")
      = ⟨⟨true, []⟩, [Frame.status "recording"], 0, true⟩ :=
  ws_start_while_recording_restarts dummyTranscribe ⟨true, [[1, 2]]⟩ rfl

end BaconStt
